import Mathlib

/-!
Shallow embedding of the food-tracker application (src/main.py): the relational
store (User, FoodItem, Notification), the expiry-notification sweep, the
statistics calculator, the recipe-suggestion helper, and the signup, approval
and delete-user route logic.

Modelling conventions, justified against the source:

* Dates.  main.py reduces every date comparison to whole days:
  calculate_days_until_expiry truncates both sides to midnight before
  subtracting, and expiry dates entered through the add-item form are parsed
  with strptime of a day-only format, hence are midnight-valued.  Instants are
  therefore modelled as integer day numbers; for such values the timestamp
  comparison expiry_date <= now + 30 days used by get_recipe_suggestions
  coincides with the day comparison expiry_day <= today + 30.

* Prices.  Prices are Python floats holding small decimal literals; they are
  modelled as rationals.  Note that the Python expression price or 5.0
  substitutes the fallback both when price is None and when it is 0.0, which
  the definition pyOr reproduces.  round with a digit count is modelled as
  decimal round-half-to-even on rationals.

* The SQLAlchemy session is modelled as three lists; db.add appends, queries
  are list filters, per-row updates are maps.  Printing and the SMS stub have
  no store effect and are omitted.  sha256 password hashing is abstracted as a
  string-function parameter of signup.
-/

structure User where
  id : ℤ
  username : String
  email : String
  password : String
  phone : Option String
  is_admin : Bool
  is_approved : Bool
  deriving DecidableEq

structure FoodItem where
  id : ℤ
  user_id : ℤ
  name : String
  expiry_date : ℤ
  quantity : ℤ
  price : Option ℚ
  is_expired : Bool
  is_used : Bool
  deriving DecidableEq

structure Notification where
  user_id : ℤ
  food_item_id : ℤ
  notification_type : String
  message : String
  deriving DecidableEq

structure DB where
  users : List User
  food_items : List FoodItem
  notifications : List Notification
  deriving DecidableEq

/-- `calculate_days_until_expiry` of main.py: both datetimes are truncated to
midnight and the difference is taken in days; with day-number instants this is
plain subtraction. -/
def calculate_days_until_expiry (today expiry_date : ℤ) : ℤ :=
  expiry_date - today

/-- The query `db.query(Notification).filter(Notification.food_item_id == item.id)`. -/
def notifFor (db : DB) (fid : ℤ) : List Notification :=
  db.notifications.filter (fun n => n.food_item_id == fid)

/-- `notification_types_sent`: the list of types of the notifications already
recorded for a given food item. -/
def typesFor (db : DB) (fid : ℤ) : List String :=
  (notifFor db fid).map (fun n => n.notification_type)

/-- `send_notification` of main.py: constructs a Notification row and adds it
to the session (the print and the SMS stub have no store effect). -/
def send_notification (db : DB) (item : FoodItem) (notif_type message : String) : DB :=
  { db with notifications := db.notifications ++
      [{ user_id := item.user_id, food_item_id := item.id,
         notification_type := notif_type, message := message }] }

/-- `get_recipe_suggestions` of main.py. -/
def get_recipe_suggestions (today : ℤ) (db : DB) (uid : ℤ) : String :=
  let expiring_items := db.food_items.filter (fun i =>
    i.user_id == uid && decide (i.expiry_date ≤ today + 30) && i.is_expired == false)
  let ingredients := expiring_items.map (fun i => i.name)
  if ingredients.isEmpty then "No recipes available"
  else "You have: " ++ String.intercalate ", " (ingredients.take 3) ++
    ". Try making a stir-fry, soup, or salad!"

/-- `item.is_expired = True`. -/
def flagItem (i : FoodItem) : FoodItem := { i with is_expired := true }

/-- The per-row update of the flagging commit: the row whose primary key
matches is flagged, the others are untouched. -/
def flagIf (fid : ℤ) (i : FoodItem) : FoodItem := if i.id = fid then flagItem i else i

/-- Flag a row when its primary key belongs to a set of keys (used to state
the cumulative item effect of a sweep). -/
def flagIds (A : List ℤ) (i : FoodItem) : FoodItem := if i.id ∈ A then flagItem i else i

/-- The primary keys of the snapshot items whose days_left is negative: the
rows a sweep over snapshot `S` will flag. -/
def negIds (today : ℤ) (S : List FoodItem) : List ℤ :=
  (S.filter (fun j => decide (calculate_days_until_expiry today j.expiry_date < 0))).map
    (fun j => j.id)

/-- The notification types one run of the threshold checks appends for an
item with the given days_left and notification history. -/
def thresholdAppend (days_left : ℤ) (sent : List String) : List String :=
  (if days_left ≤ 30 ∧ "month" ∉ sent then ["month"] else []) ++
    (if days_left ≤ 7 ∧ "week" ∉ sent then ["week"] else []) ++
      (if days_left ≤ 1 ∧ "day" ∉ sent then ["day"] else [])

/-- The three staged threshold checks of `check_and_send_notifications`
(lines 142-159 of main.py), for one item with nonnegative days_left: the
notification history of the item is read once, then each of the month, week
and day notifications is sent when the threshold is met and no notification of
that type is recorded. -/
def threshold_checks (today : ℤ) (db : DB) (item : FoodItem) : DB :=
  let days_left := calculate_days_until_expiry today item.expiry_date
  let sent := typesFor db item.id
  let db1 := if days_left ≤ 30 ∧ "month" ∉ sent then
      send_notification db item "month"
        (item.name ++ " expires in a month! Recipe ideas: " ++
          get_recipe_suggestions today db item.user_id)
    else db
  let db2 := if days_left ≤ 7 ∧ "week" ∉ sent then
      send_notification db1 item "week" (item.name ++ " expires in a week! Use it soon.")
    else db1
  if days_left ≤ 1 ∧ "day" ∉ sent then
    send_notification db2 item "day" (item.name ++ " expires tomorrow! Use it today.")
  else db2

/-- The body of the sweep loop for one item: if days_left is negative the item
is flagged expired and an expired notification is sent (and the threshold
checks are skipped via continue); otherwise the threshold checks run. -/
def process_item (today : ℤ) (db : DB) (item : FoodItem) : DB :=
  if calculate_days_until_expiry today item.expiry_date < 0 then
    send_notification
      { db with food_items := db.food_items.map (flagIf item.id) }
      item "expired" (item.name ++ " has expired!")
  else
    threshold_checks today db item

/-- `check_and_send_notifications` of main.py: the snapshot of all non-expired
items is taken once, then each is processed in order against the evolving
store. -/
def check_and_send_notifications (today : ℤ) (db : DB) : DB :=
  (db.food_items.filter (fun i => i.is_expired == false)).foldl (process_item today) db

/-- The store effect of a GET /dashboard request by user `uid`: the global
sweep runs first, then every not-used item of the viewer whose expiry is past
and which is not yet flagged is flagged expired. -/
def dashboard_view (today uid : ℤ) (db : DB) : DB :=
  { check_and_send_notifications today db with
    food_items := (check_and_send_notifications today db).food_items.map (fun i =>
      if i.user_id = uid ∧ i.is_used = false ∧
          calculate_days_until_expiry today i.expiry_date < 0 ∧ i.is_expired = false
      then flagItem i else i) }

/-- Python `price or 5.0`: the fallback is substituted when price is None and
also when it is the falsy float 0.0. -/
def pyOr (p : Option ℚ) (fallback : ℚ) : ℚ :=
  match p with
  | none => fallback
  | some v => if v = 0 then fallback else v

/-- Round a rational to an integer, ties to even (the rounding of Python's
built-in round). -/
def roundHalfEven (q : ℚ) : ℤ :=
  let f := ⌊q⌋
  let frac := q - f
  if frac < 1/2 then f
  else if 1/2 < frac then f + 1
  else if f % 2 = 0 then f else f + 1

/-- Python `round(q, ndigits)` on the rational model. -/
def pyRound (q : ℚ) (ndigits : ℕ) : ℚ :=
  (roundHalfEven (q * 10 ^ ndigits) : ℚ) / 10 ^ ndigits

structure Stats where
  total_items : ℕ
  expired_items : ℕ
  used_items : ℕ
  active_items : ℕ
  money_saved : ℚ
  money_wasted : ℚ
  waste_percentage : ℚ
  deriving DecidableEq

/-- `calculate_user_stats` of main.py. -/
def calculate_user_stats (db : DB) (uid : ℤ) : Stats :=
  let all_items := db.food_items.filter (fun i => i.user_id == uid)
  let total_items := all_items.length
  let expired_items := (all_items.filter (fun i => i.is_expired)).length
  let used_items := (all_items.filter (fun i => i.is_used)).length
  let active_items := (all_items.filter (fun i => !i.is_expired && !i.is_used)).length
  let money_saved := ((all_items.filter (fun i => i.is_used)).map (fun i => pyOr i.price 5)).sum
  let money_wasted := ((all_items.filter (fun i => i.is_expired)).map (fun i => pyOr i.price 5)).sum
  let waste_percentage : ℚ :=
    if total_items > 0 then (expired_items : ℚ) / (total_items : ℚ) * 100 else 0
  { total_items := total_items, expired_items := expired_items,
    used_items := used_items, active_items := active_items,
    money_saved := pyRound money_saved 2,
    money_wasted := pyRound money_wasted 2,
    waste_percentage := pyRound waste_percentage 1 }

/-- The money-saved aggregate as the specification words it: the flat fallback
5.0 is substituted only when the price is absent.  Stated from the spec text
to be compared against `calculate_user_stats`, which follows Python `or`. -/
def money_saved_spec (db : DB) (uid : ℤ) : ℚ :=
  (((db.food_items.filter (fun i => i.user_id == uid)).filter
      (fun i => i.is_used)).map (fun i => i.price.getD 5)).sum

/-- The fallback rule as the amended claim words it: the flat fallback 5.0 is
substituted when the price is absent or equal to zero. -/
def price_or_fallback_amended (p : Option ℚ) : ℚ :=
  if p = none ∨ p = some 0 then 5 else p.getD 5

/-- POST /signup of main.py.  The boolean is true when the duplicate-identity
error template is returned; `hashpw` abstracts sha256, `fresh_id` the
autoincrement primary key. -/
def signup (hashpw : String → String) (db : DB) (fresh_id : ℤ)
    (username email password phone : String) : DB × Bool :=
  if db.users.any (fun u => u.username == username || u.email == email) then
    (db, true)
  else
    let is_first_user := db.users.length == 0
    ({ db with users := db.users ++
        [{ id := fresh_id, username := username, email := email,
           password := hashpw password,
           phone := if phone == "" then none else some phone,
           is_admin := is_first_user, is_approved := is_first_user }] },
     false)

/-- POST /admin/approve of main.py: `db.get(User, user_id)` followed by
setting the approval flag when the user exists. -/
def approve_user (db : DB) (uid : ℤ) : DB :=
  { db with users := db.users.map (fun u =>
      if u.id = uid then { u with is_approved := true } else u) }

/-- POST /admin/delete-user of main.py.  `none` models the HTTP error raised
by require_admin; `some` carries the store after the redirect.  Deleting a
user cascades to the user's food items (the all, delete-orphan relationship);
notifications are not cascaded. -/
def delete_user (db : DB) (session_uid target_uid : ℤ) : Option DB :=
  (db.users.find? (fun u => u.id == session_uid)).bind (fun admin =>
    if admin.is_admin then
      if target_uid = session_uid then some db
      else if (db.users.find? (fun u => u.id == target_uid)).isSome then
        some { db with
          users := db.users.filter (fun u => !(u.id == target_uid)),
          food_items := db.food_items.filter (fun i => !(i.user_id == target_uid)) }
      else some db
    else none)

/-- The invariant of the spec: at most one Notification per
(food_item_id, notification_type) pair. -/
def notifPairs (db : DB) : List (ℤ × String) :=
  db.notifications.map (fun n => (n.food_item_id, n.notification_type))

def NotifUnique (db : DB) : Prop := (notifPairs db).Nodup

instance (db : DB) : Decidable (NotifUnique db) :=
  List.nodupDecidable _

/-- Auxiliary store invariant: every item referenced by an expired
notification already carries the is_expired flag. -/
def ExpiredFlagged (db : DB) : Prop :=
  ∀ n ∈ db.notifications, n.notification_type = "expired" →
    ∀ i ∈ db.food_items, i.id = n.food_item_id → i.is_expired = true

instance (db : DB) : Decidable (ExpiredFlagged db) :=
  inferInstanceAs (Decidable (∀ n ∈ db.notifications, n.notification_type = "expired" →
    ∀ i ∈ db.food_items, i.id = n.food_item_id → i.is_expired = true))

/-- Auxiliary store invariant: food-item primary keys are pairwise distinct. -/
def ItemIdsNodup (db : DB) : Prop :=
  (db.food_items.map (fun i => i.id)).Nodup

instance (db : DB) : Decidable (ItemIdsNodup db) :=
  List.nodupDecidable _

/-- The strengthened store invariant under which notification uniqueness is
preserved by the sweep and the dashboard view. -/
def StoreInv (db : DB) : Prop :=
  ItemIdsNodup db ∧ NotifUnique db ∧ ExpiredFlagged db

instance (db : DB) : Decidable (StoreInv db) :=
  inferInstanceAs (Decidable (ItemIdsNodup db ∧ NotifUnique db ∧ ExpiredFlagged db))

/-! ### Concrete stores used in counterexamples and witnesses -/

/-- A store satisfying the bare uniqueness invariant in which an un-flagged
item already carries an expired notification. -/
def store_preexpired : DB :=
  { users := [{ id := 1, username := "ann", email := "ann@x", password := "h",
                phone := none, is_admin := true, is_approved := true }],
    food_items := [{ id := 1, user_id := 1, name := "milk", expiry_date := -1,
                     quantity := 1, price := none, is_expired := false, is_used := false }],
    notifications := [{ user_id := 1, food_item_id := 1,
                        notification_type := "expired", message := "m" }] }

/-- A small well-formed store: one past-dated item without history, one item
thirty days out, one already-flagged item. -/
def store_basic : DB :=
  { users := [{ id := 1, username := "ann", email := "ann@x", password := "h",
                phone := none, is_admin := true, is_approved := true }],
    food_items := [
      { id := 1, user_id := 1, name := "milk", expiry_date := -1,
        quantity := 1, price := none, is_expired := false, is_used := false },
      { id := 2, user_id := 1, name := "eggs", expiry_date := 30,
        quantity := 1, price := none, is_expired := false, is_used := false },
      { id := 3, user_id := 1, name := "jam", expiry_date := -5,
        quantity := 1, price := none, is_expired := true, is_used := false }],
    notifications := [{ user_id := 1, food_item_id := 3,
                        notification_type := "expired", message := "m" }] }

/-- The statistics example of the spec: items priced 5.0 (used), 3.0
(expired) and no-price (used), all owned by user 1. -/
def store_stats : DB :=
  { users := [{ id := 1, username := "ann", email := "ann@x", password := "h",
                phone := none, is_admin := true, is_approved := true }],
    food_items := [
      { id := 1, user_id := 1, name := "i1", expiry_date := 100,
        quantity := 1, price := some 5, is_expired := false, is_used := true },
      { id := 2, user_id := 1, name := "i2", expiry_date := 100,
        quantity := 1, price := some 3, is_expired := true, is_used := false },
      { id := 3, user_id := 1, name := "i3", expiry_date := 100,
        quantity := 1, price := none, is_expired := false, is_used := true }],
    notifications := [] }

/-- A store with one used item whose price is present but equal to 0.0. -/
def store_zero_price : DB :=
  { users := [{ id := 1, username := "ann", email := "ann@x", password := "h",
                phone := none, is_admin := true, is_approved := true }],
    food_items := [{ id := 1, user_id := 1, name := "z", expiry_date := 100,
                     quantity := 1, price := some 0, is_expired := false, is_used := true }],
    notifications := [] }

/-- The empty store: the state before the first-ever signup. -/
def store_empty : DB :=
  { users := [], food_items := [], notifications := [] }

/-- A two-user store with an admin and a second user owning items. -/
def store_two_users : DB :=
  { users := [
      { id := 1, username := "ann", email := "ann@x", password := "h",
        phone := none, is_admin := true, is_approved := true },
      { id := 2, username := "bob", email := "bob@x", password := "h",
        phone := none, is_admin := false, is_approved := true }],
    food_items := [
      { id := 1, user_id := 2, name := "milk", expiry_date := 10,
        quantity := 1, price := none, is_expired := false, is_used := false },
      { id := 2, user_id := 1, name := "eggs", expiry_date := 10,
        quantity := 1, price := none, is_expired := false, is_used := false }],
    notifications := [] }

/-! ### Structural lemmas about the sweep -/

theorem send_users (db : DB) (item : FoodItem) (t m : String) :
    (send_notification db item t m).users = db.users := rfl

theorem send_food_items (db : DB) (item : FoodItem) (t m : String) :
    (send_notification db item t m).food_items = db.food_items := rfl

theorem notifFor_set_food_items (db : DB) (l : List FoodItem) (fid : ℤ) :
    notifFor { db with food_items := l } fid = notifFor db fid := rfl

theorem typesFor_set_food_items (db : DB) (l : List FoodItem) (fid : ℤ) :
    typesFor { db with food_items := l } fid = typesFor db fid := rfl

theorem notifFor_send_self (db : DB) (item : FoodItem) (t m : String) :
    notifFor (send_notification db item t m) item.id =
      notifFor db item.id ++
        [{ user_id := item.user_id, food_item_id := item.id,
           notification_type := t, message := m }] := by
  simp [notifFor, send_notification, List.filter_append]

theorem notifFor_send_ne (db : DB) (item : FoodItem) (t m : String) (fid : ℤ)
    (h : item.id ≠ fid) :
    notifFor (send_notification db item t m) fid = notifFor db fid := by
  simp [notifFor, send_notification, List.filter_append, h]

theorem typesFor_send_self (db : DB) (item : FoodItem) (t m : String) :
    typesFor (send_notification db item t m) item.id = typesFor db item.id ++ [t] := by
  simp [typesFor, notifFor_send_self]

theorem typesFor_send_ne (db : DB) (item : FoodItem) (t m : String) (fid : ℤ)
    (h : item.id ≠ fid) :
    typesFor (send_notification db item t m) fid = typesFor db fid := by
  simp [typesFor, notifFor_send_ne _ _ _ _ _ h]

theorem threshold_users (today : ℤ) (db : DB) (item : FoodItem) :
    (threshold_checks today db item).users = db.users := by
  simp only [threshold_checks]
  split_ifs <;> rfl

theorem threshold_food_items (today : ℤ) (db : DB) (item : FoodItem) :
    (threshold_checks today db item).food_items = db.food_items := by
  simp only [threshold_checks]
  split_ifs <;> rfl

theorem process_users (today : ℤ) (db : DB) (item : FoodItem) :
    (process_item today db item).users = db.users := by
  unfold process_item
  split_ifs
  · rfl
  · exact threshold_users today db item

theorem process_food_items (today : ℤ) (db : DB) (item : FoodItem) :
    (process_item today db item).food_items =
      if calculate_days_until_expiry today item.expiry_date < 0 then
        db.food_items.map (flagIf item.id)
      else db.food_items := by
  unfold process_item
  split_ifs
  · rfl
  · exact threshold_food_items today db item

theorem notifFor_threshold_ne (today : ℤ) (db : DB) (item : FoodItem) (fid : ℤ)
    (h : item.id ≠ fid) :
    notifFor (threshold_checks today db item) fid = notifFor db fid := by
  simp only [threshold_checks]
  split_ifs <;> simp [notifFor_send_ne _ _ _ _ _ h]

theorem notifFor_process_ne (today : ℤ) (db : DB) (item : FoodItem) (fid : ℤ)
    (h : item.id ≠ fid) :
    notifFor (process_item today db item) fid = notifFor db fid := by
  unfold process_item
  split_ifs
  · rw [notifFor_send_ne _ _ _ _ _ h]; rfl
  · exact notifFor_threshold_ne _ _ _ _ h

theorem typesFor_process_ne (today : ℤ) (db : DB) (item : FoodItem) (fid : ℤ)
    (h : item.id ≠ fid) :
    typesFor (process_item today db item) fid = typesFor db fid := by
  simp [typesFor, notifFor_process_ne _ _ _ _ h]

theorem typesFor_process_neg (today : ℤ) (db : DB) (item : FoodItem)
    (h : calculate_days_until_expiry today item.expiry_date < 0) :
    typesFor (process_item today db item) item.id = typesFor db item.id ++ ["expired"] := by
  unfold process_item
  rw [if_pos h, typesFor_send_self, typesFor_set_food_items]

theorem typesFor_threshold_self (today : ℤ) (db : DB) (item : FoodItem) :
    typesFor (threshold_checks today db item) item.id =
      typesFor db item.id ++
        thresholdAppend (calculate_days_until_expiry today item.expiry_date)
          (typesFor db item.id) := by
  simp only [threshold_checks, thresholdAppend]
  split_ifs <;> simp [typesFor_send_self]

theorem typesFor_process_nonneg (today : ℤ) (db : DB) (item : FoodItem)
    (h : ¬ calculate_days_until_expiry today item.expiry_date < 0) :
    typesFor (process_item today db item) item.id =
      typesFor db item.id ++
        thresholdAppend (calculate_days_until_expiry today item.expiry_date)
          (typesFor db item.id) := by
  unfold process_item
  rw [if_neg h, typesFor_threshold_self]

theorem typesFor_send_mono (db : DB) (item : FoodItem) (t m : String) (fid : ℤ) (x : String)
    (hx : x ∈ typesFor db fid) : x ∈ typesFor (send_notification db item t m) fid := by
  by_cases h : item.id = fid
  · subst h
    rw [typesFor_send_self]
    exact List.mem_append_left _ hx
  · rw [typesFor_send_ne _ _ _ _ _ h]
    exact hx

theorem typesFor_threshold_mono (today : ℤ) (db : DB) (item : FoodItem) (fid : ℤ) (x : String)
    (hx : x ∈ typesFor db fid) : x ∈ typesFor (threshold_checks today db item) fid := by
  simp only [threshold_checks]
  split_ifs <;> (repeat first | exact hx | apply typesFor_send_mono)

theorem typesFor_process_mono (today : ℤ) (db : DB) (item : FoodItem) (fid : ℤ) (x : String)
    (hx : x ∈ typesFor db fid) : x ∈ typesFor (process_item today db item) fid := by
  unfold process_item
  split_ifs
  · apply typesFor_send_mono
    rw [typesFor_set_food_items]
    exact hx
  · exact typesFor_threshold_mono _ _ _ _ _ hx

/-! ### Fold lemmas -/

theorem foldl_users (today : ℤ) (S : List FoodItem) (db : DB) :
    (S.foldl (process_item today) db).users = db.users := by
  induction S generalizing db with
  | nil => rfl
  | cons i S ih => rw [List.foldl_cons, ih, process_users]

theorem notifFor_foldl_ne (today : ℤ) (S : List FoodItem) (db : DB) (fid : ℤ)
    (h : ∀ j ∈ S, j.id ≠ fid) :
    notifFor (S.foldl (process_item today) db) fid = notifFor db fid := by
  induction S generalizing db with
  | nil => rfl
  | cons i S ih =>
    rw [List.foldl_cons, ih _ (fun j hj => h j (List.mem_cons_of_mem _ hj)),
      notifFor_process_ne _ _ _ _ (h i (List.mem_cons_self _ _))]

theorem typesFor_foldl_ne (today : ℤ) (S : List FoodItem) (db : DB) (fid : ℤ)
    (h : ∀ j ∈ S, j.id ≠ fid) :
    typesFor (S.foldl (process_item today) db) fid = typesFor db fid := by
  simp [typesFor, notifFor_foldl_ne _ _ _ _ h]

theorem typesFor_foldl_mono (today : ℤ) (S : List FoodItem) (db : DB) (fid : ℤ) (x : String)
    (hx : x ∈ typesFor db fid) : x ∈ typesFor (S.foldl (process_item today) db) fid := by
  induction S generalizing db with
  | nil => exact hx
  | cons i S ih => exact ih _ (typesFor_process_mono _ _ _ _ _ hx)

theorem flagItem_flagItem (i : FoodItem) : flagItem (flagItem i) = flagItem i := rfl

theorem flagIds_flagIf (A : List ℤ) (fid : ℤ) (i : FoodItem) :
    flagIds A (flagIf fid i) = flagIds (fid :: A) i := by
  by_cases h1 : i.id = fid
  · simp [flagIds, flagIf, h1, flagItem]
  · simp [flagIds, flagIf, h1]

theorem foldl_food_items (today : ℤ) (S : List FoodItem) (db : DB) :
    (S.foldl (process_item today) db).food_items =
      db.food_items.map (flagIds (negIds today S)) := by
  induction S generalizing db with
  | nil =>
    have h1 : db.food_items.map (flagIds (negIds today [])) = db.food_items.map (fun a => a) :=
      List.map_congr_left (fun a _ => by simp [flagIds, negIds])
    rw [List.foldl_nil, h1, List.map_id']
  | cons i S ih =>
    rw [List.foldl_cons, ih, process_food_items]
    by_cases h : calculate_days_until_expiry today i.expiry_date < 0
    · rw [if_pos h, List.map_map]
      have hA : negIds today (i :: S) = i.id :: negIds today S := by
        simp [negIds, h]
      rw [hA]
      exact List.map_congr_left (fun a _ => flagIds_flagIf _ _ _)
    · rw [if_neg h]
      have hA : negIds today (i :: S) = negIds today S := by
        simp [negIds, h]
      rw [hA]

/-! ### Uniqueness-invariant lemmas -/

theorem notifPairs_send (db : DB) (item : FoodItem) (t m : String) :
    notifPairs (send_notification db item t m) = notifPairs db ++ [(item.id, t)] := by
  simp [notifPairs, send_notification]

theorem notifPairs_set_food_items (db : DB) (l : List FoodItem) :
    notifPairs { db with food_items := l } = notifPairs db := rfl

theorem mem_typesFor_iff (db : DB) (fid : ℤ) (t : String) :
    t ∈ typesFor db fid ↔
      ∃ n ∈ db.notifications, n.food_item_id = fid ∧ n.notification_type = t := by
  simp only [typesFor, notifFor, List.mem_map, List.mem_filter, beq_iff_eq]
  constructor
  · rintro ⟨n, ⟨hn, hfid⟩, ht⟩
    exact ⟨n, hn, hfid, ht⟩
  · rintro ⟨n, hn, hfid, ht⟩
    exact ⟨n, ⟨hn, hfid⟩, ht⟩

theorem mem_notifPairs (db : DB) (fid : ℤ) (t : String) :
    (fid, t) ∈ notifPairs db ↔ t ∈ typesFor db fid := by
  rw [mem_typesFor_iff]
  simp only [notifPairs, List.mem_map, Prod.ext_iff]

theorem NotifUnique_send (db : DB) (item : FoodItem) (t m : String)
    (h : NotifUnique db) (ht : t ∉ typesFor db item.id) :
    NotifUnique (send_notification db item t m) := by
  unfold NotifUnique
  rw [notifPairs_send, List.nodup_append]
  refine ⟨h, List.nodup_singleton _, ?_⟩
  intro p hp hq
  simp only [List.mem_singleton] at hq
  subst hq
  exact ht ((mem_notifPairs db item.id t).mp hp)

theorem NotifUnique_ite_send (c : Prop) [Decidable c] (db : DB) (item : FoodItem)
    (t m : String) (h : NotifUnique db) (ht : c → t ∉ typesFor db item.id) :
    NotifUnique (if c then send_notification db item t m else db) := by
  split_ifs with hc
  · exact NotifUnique_send _ _ _ _ h (ht hc)
  · exact h

theorem typesFor_ite_send_self (c : Prop) [Decidable c] (db : DB) (item : FoodItem)
    (t m : String) :
    typesFor (if c then send_notification db item t m else db) item.id =
      typesFor db item.id ++ (if c then [t] else []) := by
  split_ifs
  · exact typesFor_send_self _ _ _ _
  · simp

theorem NotifUnique_threshold (today : ℤ) (db : DB) (item : FoodItem)
    (h : NotifUnique db) : NotifUnique (threshold_checks today db item) := by
  simp only [threshold_checks]
  apply NotifUnique_ite_send
  · apply NotifUnique_ite_send
    · exact NotifUnique_ite_send _ _ _ _ _ h (fun hc => hc.2)
    · intro hc
      rw [typesFor_ite_send_self]
      simp only [List.mem_append]
      rintro (hw | hw)
      · exact hc.2 hw
      · split_ifs at hw
        · simp only [List.mem_singleton] at hw
          exact absurd hw (by decide)
        · simp at hw
  · intro hc
    rw [typesFor_ite_send_self, typesFor_ite_send_self]
    simp only [List.mem_append]
    rintro ((hd | hd) | hd)
    · exact hc.2 hd
    · split_ifs at hd
      · simp only [List.mem_singleton] at hd
        exact absurd hd (by decide)
      · simp at hd
    · split_ifs at hd
      · simp only [List.mem_singleton] at hd
        exact absurd hd (by decide)
      · simp at hd

theorem NotifUnique_process (today : ℤ) (db : DB) (item : FoodItem)
    (h : NotifUnique db)
    (hexp : calculate_days_until_expiry today item.expiry_date < 0 →
      "expired" ∉ typesFor db item.id) :
    NotifUnique (process_item today db item) := by
  unfold process_item
  split_ifs with hd
  · apply NotifUnique_send
    · exact h
    · rw [typesFor_set_food_items]
      exact hexp hd
  · exact NotifUnique_threshold _ _ _ h

theorem NotifUnique_foldl (today : ℤ) (S : List FoodItem) (db : DB)
    (h : NotifUnique db)
    (hexp : ∀ j ∈ S, calculate_days_until_expiry today j.expiry_date < 0 →
      "expired" ∉ typesFor db j.id)
    (hnd : (S.map (fun j => j.id)).Nodup) :
    NotifUnique (S.foldl (process_item today) db) := by
  induction S generalizing db with
  | nil => exact h
  | cons i S ih =>
    rw [List.foldl_cons]
    rw [List.map_cons, List.nodup_cons] at hnd
    apply ih
    · exact NotifUnique_process _ _ _ h (hexp i (List.mem_cons_self _ _))
    · intro j hj hdj
      rw [typesFor_process_ne]
      · exact hexp j (List.mem_cons_of_mem _ hj) hdj
      · intro he
        exact hnd.1 (by rw [he]; exact List.mem_map_of_mem _ hj)
    · exact hnd.2

/-! ### Expired-flag invariant lemmas -/

theorem EF_send (db : DB) (item : FoodItem) (t m : String)
    (h : ExpiredFlagged db) (ht : t ≠ "expired") :
    ExpiredFlagged (send_notification db item t m) := by
  intro n hn he i hi hid
  simp only [send_notification, List.mem_append, List.mem_singleton] at hn
  rcases hn with hn | hn
  · exact h n hn he i hi hid
  · subst hn
    exact absurd he ht

theorem EF_ite_send (c : Prop) [Decidable c] (db : DB) (item : FoodItem) (t m : String)
    (h : ExpiredFlagged db) (ht : t ≠ "expired") :
    ExpiredFlagged (if c then send_notification db item t m else db) := by
  split_ifs
  · exact EF_send _ _ _ _ h ht
  · exact h

theorem EF_threshold (today : ℤ) (db : DB) (item : FoodItem)
    (h : ExpiredFlagged db) : ExpiredFlagged (threshold_checks today db item) := by
  simp only [threshold_checks]
  exact EF_ite_send _ _ _ _ _
    (EF_ite_send _ _ _ _ _ (EF_ite_send _ _ _ _ _ h (by decide)) (by decide)) (by decide)

theorem EF_process (today : ℤ) (db : DB) (item : FoodItem)
    (h : ExpiredFlagged db) : ExpiredFlagged (process_item today db item) := by
  unfold process_item
  split_ifs with hd
  · intro n hn he i hi hid
    simp only [send_notification, List.mem_append, List.mem_singleton] at hn
    have hi' : i ∈ db.food_items.map (flagIf item.id) := hi
    obtain ⟨i0, hi0, rfl⟩ := List.mem_map.mp hi'
    by_cases hq : i0.id = item.id
    · simp [flagIf, hq, flagItem]
    · rw [flagIf, if_neg hq] at hid ⊢
      rcases hn with hn | hn
      · exact h n hn he i0 hi0 hid
      · subst hn
        exact absurd hid hq
  · exact EF_threshold _ _ _ h

theorem EF_foldl (today : ℤ) (S : List FoodItem) (db : DB)
    (h : ExpiredFlagged db) : ExpiredFlagged (S.foldl (process_item today) db) := by
  induction S generalizing db with
  | nil => exact h
  | cons i S ih => exact ih _ (EF_process _ _ _ h)

/-! ### Sweep-level consequences -/

theorem snapshot_ids_nodup (db : DB) (h : ItemIdsNodup db) :
    ((db.food_items.filter (fun i => i.is_expired == false)).map (fun j => j.id)).Nodup :=
  List.Nodup.sublist ((List.filter_sublist _).map _) h

theorem NotifUnique_sweep (today : ℤ) (db : DB) (hinv : StoreInv db) :
    NotifUnique (check_and_send_notifications today db) := by
  obtain ⟨hnd, hu, hef⟩ := hinv
  unfold check_and_send_notifications
  apply NotifUnique_foldl _ _ _ hu
  · intro j hj _ hmem
    rw [mem_typesFor_iff] at hmem
    obtain ⟨n, hn, hfid, ht⟩ := hmem
    rw [List.mem_filter] at hj
    have hjf : j.is_expired = false := by simpa using hj.2
    have hje : j.is_expired = true := hef n hn ht j hj.1 hfid.symm
    rw [hje] at hjf
    cases hjf
  · exact snapshot_ids_nodup db hnd

theorem EF_sweep (today : ℤ) (db : DB) (h : ExpiredFlagged db) :
    ExpiredFlagged (check_and_send_notifications today db) :=
  EF_foldl _ _ _ h

theorem ids_flagIds (A : List ℤ) (i : FoodItem) : (flagIds A i).id = i.id := by
  unfold flagIds flagItem
  split_ifs <;> rfl

theorem expiry_flagIds (A : List ℤ) (i : FoodItem) :
    (flagIds A i).expiry_date = i.expiry_date := by
  unfold flagIds flagItem
  split_ifs <;> rfl

theorem sweep_food_items (today : ℤ) (db : DB) :
    (check_and_send_notifications today db).food_items =
      db.food_items.map
        (flagIds (negIds today (db.food_items.filter (fun i => i.is_expired == false)))) := by
  unfold check_and_send_notifications
  exact foldl_food_items _ _ _

theorem sweep_ids (today : ℤ) (db : DB) :
    (check_and_send_notifications today db).food_items.map (fun i => i.id) =
      db.food_items.map (fun i => i.id) := by
  rw [sweep_food_items, List.map_map]
  exact List.map_congr_left (fun a _ => ids_flagIds _ _)

theorem ItemIdsNodup_sweep (today : ℤ) (db : DB) (h : ItemIdsNodup db) :
    ItemIdsNodup (check_and_send_notifications today db) := by
  unfold ItemIdsNodup
  rw [sweep_ids]
  exact h

theorem sweep_users (today : ℤ) (db : DB) :
    (check_and_send_notifications today db).users = db.users := by
  unfold check_and_send_notifications
  exact foldl_users _ _ _

/-- After a sweep, every item whose expiry is strictly past carries the
is_expired flag. -/
theorem sweep_flags_past (today : ℤ) (db : DB) :
    ∀ i ∈ (check_and_send_notifications today db).food_items,
      calculate_days_until_expiry today i.expiry_date < 0 → i.is_expired = true := by
  rw [sweep_food_items]
  intro i hi hd
  obtain ⟨i0, hi0, rfl⟩ := List.mem_map.mp hi
  rw [expiry_flagIds] at hd
  by_cases he : i0.is_expired = true
  · unfold flagIds
    split_ifs
    · rfl
    · exact he
  · have hmem : i0.id ∈ negIds today (db.food_items.filter (fun i => i.is_expired == false)) := by
      unfold negIds
      apply List.mem_map_of_mem
      rw [List.mem_filter]
      refine ⟨?_, by simp [hd]⟩
      rw [List.mem_filter]
      exact ⟨hi0, by simp [he]⟩
    unfold flagIds
    rw [if_pos hmem]
    rfl

theorem mem_typesFor_threshold_self (today : ℤ) (db : DB) (item : FoodItem) :
    (calculate_days_until_expiry today item.expiry_date ≤ 30 →
      "month" ∈ typesFor (threshold_checks today db item) item.id) ∧
    (calculate_days_until_expiry today item.expiry_date ≤ 7 →
      "week" ∈ typesFor (threshold_checks today db item) item.id) ∧
    (calculate_days_until_expiry today item.expiry_date ≤ 1 →
      "day" ∈ typesFor (threshold_checks today db item) item.id) := by
  have key := typesFor_threshold_self today db item
  refine ⟨fun hdle => ?_, fun hdle => ?_, fun hdle => ?_⟩ <;> rw [key, List.mem_append]
  · by_cases hm : "month" ∈ typesFor db item.id
    · exact Or.inl hm
    · right
      simp [thresholdAppend, hdle, hm]
  · by_cases hw : "week" ∈ typesFor db item.id
    · exact Or.inl hw
    · right
      simp [thresholdAppend, hdle, hw]
  · by_cases hd1 : "day" ∈ typesFor db item.id
    · exact Or.inl hd1
    · right
      simp [thresholdAppend, hdle, hd1]

theorem mem_typesFor_foldl (today : ℤ) (S : List FoodItem) (db : DB) (x : FoodItem)
    (hx : x ∈ S)
    (hnonneg : ¬ calculate_days_until_expiry today x.expiry_date < 0) :
    (calculate_days_until_expiry today x.expiry_date ≤ 30 →
      "month" ∈ typesFor (S.foldl (process_item today) db) x.id) ∧
    (calculate_days_until_expiry today x.expiry_date ≤ 7 →
      "week" ∈ typesFor (S.foldl (process_item today) db) x.id) ∧
    (calculate_days_until_expiry today x.expiry_date ≤ 1 →
      "day" ∈ typesFor (S.foldl (process_item today) db) x.id) := by
  induction S generalizing db with
  | nil => cases hx
  | cons i S ih =>
    rw [List.foldl_cons]
    rcases List.mem_cons.mp hx with rfl | hx'
    · have hstep := mem_typesFor_threshold_self today db x
      refine ⟨fun h30 => ?_, fun h7 => ?_, fun h1 => ?_⟩ <;> apply typesFor_foldl_mono
      · unfold process_item
        rw [if_neg hnonneg]
        exact hstep.1 h30
      · unfold process_item
        rw [if_neg hnonneg]
        exact hstep.2.1 h7
      · unfold process_item
        rw [if_neg hnonneg]
        exact hstep.2.2 h1
    · exact ih (process_item today db i) hx'

theorem foldl_fixed (f : DB → FoodItem → DB) (l : List FoodItem) (db : DB)
    (h : ∀ a ∈ l, f db a = db) : l.foldl f db = db := by
  induction l with
  | nil => rfl
  | cons i l ih =>
    rw [List.foldl_cons, h i (List.mem_cons_self _ _)]
    exact ih (fun a ha => h a (List.mem_cons_of_mem _ ha))

theorem threshold_checks_fixed (today : ℤ) (db : DB) (item : FoodItem)
    (h30 : calculate_days_until_expiry today item.expiry_date ≤ 30 →
      "month" ∈ typesFor db item.id)
    (h7 : calculate_days_until_expiry today item.expiry_date ≤ 7 →
      "week" ∈ typesFor db item.id)
    (h1 : calculate_days_until_expiry today item.expiry_date ≤ 1 →
      "day" ∈ typesFor db item.id) :
    threshold_checks today db item = db := by
  have hc1 : ¬ (calculate_days_until_expiry today item.expiry_date ≤ 30 ∧
      "month" ∉ typesFor db item.id) := fun hc => hc.2 (h30 hc.1)
  have hc2 : ¬ (calculate_days_until_expiry today item.expiry_date ≤ 7 ∧
      "week" ∉ typesFor db item.id) := fun hc => hc.2 (h7 hc.1)
  have hc3 : ¬ (calculate_days_until_expiry today item.expiry_date ≤ 1 ∧
      "day" ∉ typesFor db item.id) := fun hc => hc.2 (h1 hc.1)
  simp only [threshold_checks, if_neg hc1, if_neg hc2, if_neg hc3]

/-- The sweep is idempotent on the store. -/
theorem sweep_sweep (today : ℤ) (db : DB) :
    check_and_send_notifications today (check_and_send_notifications today db) =
      check_and_send_notifications today db := by
  have hmain : ∀ a ∈ (check_and_send_notifications today db).food_items.filter
      (fun i => i.is_expired == false),
      process_item today (check_and_send_notifications today db) a =
        check_and_send_notifications today db := by
    intro a ha
    rw [List.mem_filter] at ha
    have haf : a.is_expired = false := by simpa using ha.2
    have hnn : ¬ calculate_days_until_expiry today a.expiry_date < 0 := by
      intro hneg
      have := sweep_flags_past today db a ha.1 hneg
      rw [this] at haf
      cases haf
    have ha1 := ha.1
    rw [sweep_food_items] at ha1
    obtain ⟨a0, ha0, haeq⟩ := List.mem_map.mp ha1
    have haa : a0 = a := by
      by_cases hidA : a0.id ∈
          negIds today (db.food_items.filter (fun i => i.is_expired == false))
      · exfalso
        rw [← haeq] at haf
        unfold flagIds at haf
        rw [if_pos hidA] at haf
        simp [flagItem] at haf
      · rw [← haeq]
        unfold flagIds
        rw [if_neg hidA]
    have hS1 : a ∈ db.food_items.filter (fun i => i.is_expired == false) := by
      rw [List.mem_filter]
      exact ⟨haa ▸ ha0, by simp [haf]⟩
    have hmem := mem_typesFor_foldl today
      (db.food_items.filter (fun i => i.is_expired == false)) db a hS1 hnn
    unfold process_item
    rw [if_neg hnn]
    exact threshold_checks_fixed today _ a hmem.1 hmem.2.1 hmem.2.2
  conv_lhs => unfold check_and_send_notifications
  exact foldl_fixed _ _ _ hmain

/-- After a sweep, the dashboard flagging loop is a no-op, so the store effect
of a dashboard view is exactly the sweep. -/
theorem dashboard_eq_sweep (today uid : ℤ) (db : DB) :
    dashboard_view today uid db = check_and_send_notifications today db := by
  unfold dashboard_view
  have h : ∀ a ∈ (check_and_send_notifications today db).food_items,
      (if a.user_id = uid ∧ a.is_used = false ∧
          calculate_days_until_expiry today a.expiry_date < 0 ∧ a.is_expired = false
       then flagItem a else a) = a := by
    intro a ha
    rw [if_neg]
    rintro ⟨-, -, hneg, hflag⟩
    rw [sweep_flags_past today db a ha hneg] at hflag
    cases hflag
  rw [List.map_congr_left h, List.map_id']

theorem dashboard_idem (today uid uid2 : ℤ) (db : DB) :
    dashboard_view today uid2 (dashboard_view today uid db) = dashboard_view today uid db := by
  simp only [dashboard_eq_sweep, sweep_sweep]

theorem StoreInv_sweep (today : ℤ) (db : DB) (h : StoreInv db) :
    StoreInv (check_and_send_notifications today db) :=
  ⟨ItemIdsNodup_sweep today db h.1, NotifUnique_sweep today db h, EF_sweep today db h.2.2⟩

theorem StoreInv_dashboard (today uid : ℤ) (db : DB) (h : StoreInv db) :
    StoreInv (dashboard_view today uid db) := by
  rw [dashboard_eq_sweep]
  exact StoreInv_sweep today db h

theorem nodup_map_id_inj {l : List FoodItem} {a b : FoodItem}
    (h : (l.map (fun i => i.id)).Nodup)
    (ha : a ∈ l) (hb : b ∈ l) (hab : a.id = b.id) : a = b :=
  List.inj_on_of_nodup_map h ha hb hab

theorem notifFor_foldl_of_mem_neg (today : ℤ) (S : List FoodItem) (db : DB) (x : FoodItem)
    (hx : x ∈ S) (hnd : (S.map (fun j => j.id)).Nodup)
    (hneg : calculate_days_until_expiry today x.expiry_date < 0) :
    notifFor (S.foldl (process_item today) db) x.id =
      notifFor db x.id ++
        [{ user_id := x.user_id, food_item_id := x.id,
           notification_type := "expired", message := x.name ++ " has expired!" }] := by
  induction S generalizing db with
  | nil => cases hx
  | cons i S ih =>
    rw [List.foldl_cons]
    rw [List.map_cons, List.nodup_cons] at hnd
    rcases List.mem_cons.mp hx with rfl | hx'
    · rw [notifFor_foldl_ne]
      · unfold process_item
        rw [if_pos hneg, notifFor_send_self, notifFor_set_food_items]
      · intro j hj heq
        exact hnd.1 (by rw [← heq]; exact List.mem_map_of_mem _ hj)
    · have hne : i.id ≠ x.id := fun heq =>
        hnd.1 (by rw [heq]; exact List.mem_map_of_mem _ hx')
      rw [ih (process_item today db i) hx' hnd.2, notifFor_process_ne today db i x.id hne]

theorem typesFor_foldl_of_mem_nonneg (today : ℤ) (S : List FoodItem) (db : DB) (x : FoodItem)
    (hx : x ∈ S) (hnd : (S.map (fun j => j.id)).Nodup)
    (hnn : ¬ calculate_days_until_expiry today x.expiry_date < 0) :
    typesFor (S.foldl (process_item today) db) x.id =
      typesFor db x.id ++
        thresholdAppend (calculate_days_until_expiry today x.expiry_date)
          (typesFor db x.id) := by
  induction S generalizing db with
  | nil => cases hx
  | cons i S ih =>
    rw [List.foldl_cons]
    rw [List.map_cons, List.nodup_cons] at hnd
    rcases List.mem_cons.mp hx with rfl | hx'
    · rw [typesFor_foldl_ne]
      · exact typesFor_process_nonneg today db x hnn
      · intro j hj heq
        exact hnd.1 (by rw [← heq]; exact List.mem_map_of_mem _ hj)
    · have hne : i.id ≠ x.id := fun heq =>
        hnd.1 (by rw [heq]; exact List.mem_map_of_mem _ hx')
      rw [ih (process_item today db i) hx' hnd.2, typesFor_process_ne today db i x.id hne]

theorem mem_sweep_of_nonneg (today : ℤ) (db : DB) (x : FoodItem)
    (hx : x ∈ db.food_items) (_hxe : x.is_expired = false) (hnd : ItemIdsNodup db)
    (hnn : ¬ calculate_days_until_expiry today x.expiry_date < 0) :
    x ∈ (check_and_send_notifications today db).food_items := by
  rw [sweep_food_items]
  have hxA : x.id ∉ negIds today (db.food_items.filter (fun i => i.is_expired == false)) := by
    unfold negIds
    intro hmem
    obtain ⟨j, hj, hjid⟩ := List.mem_map.mp hmem
    rw [List.mem_filter] at hj
    obtain ⟨hj1, hj2⟩ := hj
    rw [List.mem_filter] at hj1
    have hjx : j = x := nodup_map_id_inj hnd hj1.1 hx hjid
    rw [hjx] at hj2
    simp at hj2
    exact hnn hj2
  have hfix : flagIds (negIds today (db.food_items.filter (fun i => i.is_expired == false))) x
      = x := by
    unfold flagIds
    rw [if_neg hxA]
  have hm := List.mem_map_of_mem
    (flagIds (negIds today (db.food_items.filter (fun i => i.is_expired == false)))) hx
  rw [hfix] at hm
  exact hm

/-! ### Claim theorems -/

/-- C1, counterexample: the bare invariant (at most one Notification per
(food_item_id, notification_type) pair) is NOT preserved by the sweep on
every store satisfying it: in `store_preexpired` the single un-flagged item
already carries an expired notification, and the sweep emits a second one
because the days_left < 0 branch performs no history pre-check. -/
theorem C1_counterexample :
    NotifUnique store_preexpired ∧
      ¬ NotifUnique (check_and_send_notifications 0 store_preexpired) := by
  constructor
  · decide
  · decide

/-- C1, amended: the uniqueness invariant is preserved by every notification
sweep and every dashboard view, for all four notification types including
expired, provided the store also satisfies the auxiliary invariants that
food-item ids are pairwise distinct and that every item referenced by an
expired notification is already flagged expired; both auxiliary invariants
are themselves preserved, so the strengthened invariant holds along every
sequential run. -/
theorem C1_amended (today uid : ℤ) (db : DB) (h : StoreInv db) :
    StoreInv (check_and_send_notifications today db) ∧
      StoreInv (dashboard_view today uid db) :=
  ⟨StoreInv_sweep today db h, StoreInv_dashboard today uid db h⟩

/-- Witness for C1 (amended) at a concrete store. -/
theorem C1_amended_witness :
    StoreInv store_basic ∧ StoreInv (check_and_send_notifications 0 store_basic) ∧
      StoreInv (dashboard_view 0 1 store_basic) :=
  ⟨by decide, (C1_amended 0 1 store_basic (by decide)).1,
    (C1_amended 0 1 store_basic (by decide)).2⟩

/-- C2: in a single sweep, an item not yet flagged expired whose days_left is
negative is flagged expired, gets exactly one new notification — of type
expired, with the expired message — and no month/week/day threshold
notification is produced for it in that pass (its notification list gains
exactly the one expired row). -/
theorem C2_expired_item_pass (today : ℤ) (db : DB) (x : FoodItem)
    (hnd : ItemIdsNodup db) (hx : x ∈ db.food_items) (hxe : x.is_expired = false)
    (hneg : calculate_days_until_expiry today x.expiry_date < 0) :
    (∀ i ∈ (check_and_send_notifications today db).food_items,
      i.id = x.id → i.is_expired = true) ∧
    notifFor (check_and_send_notifications today db) x.id =
      notifFor db x.id ++
        [{ user_id := x.user_id, food_item_id := x.id,
           notification_type := "expired", message := x.name ++ " has expired!" }] := by
  have hxS : x ∈ db.food_items.filter (fun i => i.is_expired == false) := by
    rw [List.mem_filter]
    exact ⟨hx, by simp [hxe]⟩
  constructor
  · rw [sweep_food_items]
    intro i hi hid
    obtain ⟨i0, hi0, rfl⟩ := List.mem_map.mp hi
    rw [ids_flagIds] at hid
    have hix : i0 = x := nodup_map_id_inj hnd hi0 hx hid
    subst hix
    have hmem : i0.id ∈
        negIds today (db.food_items.filter (fun i => i.is_expired == false)) := by
      unfold negIds
      apply List.mem_map_of_mem
      rw [List.mem_filter]
      exact ⟨hxS, by simp [hneg]⟩
    unfold flagIds
    rw [if_pos hmem]
    rfl
  · unfold check_and_send_notifications
    exact notifFor_foldl_of_mem_neg today _ db x hxS (snapshot_ids_nodup db hnd) hneg

/-- Witness for C2 at a concrete store: the past-dated milk item. -/
theorem C2_witness :
    (∀ i ∈ (check_and_send_notifications 0 store_basic).food_items,
      i.id = 1 → i.is_expired = true) ∧
    notifFor (check_and_send_notifications 0 store_basic) 1 =
      notifFor store_basic 1 ++
        [{ user_id := 1, food_item_id := 1, notification_type := "expired",
           message := "milk" ++ " has expired!" }] := by
  exact C2_expired_item_pass 0 store_basic
    { id := 1, user_id := 1, name := "milk", expiry_date := -1,
      quantity := 1, price := none, is_expired := false, is_used := false }
    (by decide) (by decide) (by decide) (by decide)

/-- C3: an item with no prior notifications expiring in exactly 30 (resp. 7,
1) days receives exactly one notification of type month (resp. week, day) in
one sweep, and a second sweep in the same state adds no further notification
of that type. -/
theorem C3_threshold_once (today : ℤ) (db : DB) (x : FoodItem) (d : ℤ) (t : String)
    (hnd : ItemIdsNodup db) (hx : x ∈ db.food_items) (hxe : x.is_expired = false)
    (hhist : notifFor db x.id = [])
    (hd : calculate_days_until_expiry today x.expiry_date = d)
    (hdt : (d = 30 ∧ t = "month") ∨ (d = 7 ∧ t = "week") ∨ (d = 1 ∧ t = "day")) :
    (typesFor (check_and_send_notifications today db) x.id).count t = 1 ∧
    (typesFor (check_and_send_notifications today
        (check_and_send_notifications today db)) x.id).count t = 1 := by
  have htypes : typesFor db x.id = [] := by simp [typesFor, hhist]
  have hxS : x ∈ db.food_items.filter (fun i => i.is_expired == false) := by
    rw [List.mem_filter]
    exact ⟨hx, by simp [hxe]⟩
  rcases hdt with ⟨rfl, rfl⟩ | ⟨rfl, rfl⟩ | ⟨rfl, rfl⟩ <;>
    (have hnn : ¬ calculate_days_until_expiry today x.expiry_date < 0 := by omega) <;>
    (have h1 : typesFor (check_and_send_notifications today db) x.id =
        typesFor db x.id ++
          thresholdAppend (calculate_days_until_expiry today x.expiry_date)
            (typesFor db x.id) := by
      unfold check_and_send_notifications
      exact typesFor_foldl_of_mem_nonneg today _ db x hxS (snapshot_ids_nodup db hnd) hnn) <;>
    rw [htypes, hd] at h1
  · have hEval : thresholdAppend 30 ([] : List String) = ["month"] := by decide
    rw [hEval] at h1
    refine ⟨?_, ?_⟩
    · rw [h1]
      decide
    · rw [sweep_sweep, h1]
      decide
  · have hEval : thresholdAppend 7 ([] : List String) = ["month", "week"] := by decide
    rw [hEval] at h1
    refine ⟨?_, ?_⟩
    · rw [h1]
      decide
    · rw [sweep_sweep, h1]
      decide
  · have hEval : thresholdAppend 1 ([] : List String) = ["month", "week", "day"] := by decide
    rw [hEval] at h1
    refine ⟨?_, ?_⟩
    · rw [h1]
      decide
    · rw [sweep_sweep, h1]
      decide

/-- Witness for C3 at a concrete store: the eggs item expires in exactly 30
days and has no history. -/
theorem C3_witness :
    (typesFor (check_and_send_notifications 0 store_basic) 2).count "month" = 1 ∧
    (typesFor (check_and_send_notifications 0
        (check_and_send_notifications 0 store_basic)) 2).count "month" = 1 := by
  exact C3_threshold_once 0 store_basic
    { id := 2, user_id := 1, name := "eggs", expiry_date := 30,
      quantity := 1, price := none, is_expired := false, is_used := false }
    30 "month" (by decide) (by decide) (by decide) (by decide) (by decide)
    (Or.inl ⟨rfl, rfl⟩)

/-- C4: after a dashboard view every item whose expiry date is strictly past
carries the is_expired flag, and a second dashboard view on the same day (by
any viewer) leaves the whole store — item flags and the notification set —
unchanged: the view operation is idempotent on the store state. -/
theorem C4_dashboard_idempotent (today uid uid2 : ℤ) (db : DB) :
    (∀ i ∈ (dashboard_view today uid db).food_items,
      calculate_days_until_expiry today i.expiry_date < 0 → i.is_expired = true) ∧
    dashboard_view today uid2 (dashboard_view today uid db) =
      dashboard_view today uid db := by
  constructor
  · rw [dashboard_eq_sweep]
    exact sweep_flags_past today db
  · exact dashboard_idem today uid uid2 db

/-- Witness for C4 at a concrete store. -/
theorem C4_witness :
    (∀ i ∈ (dashboard_view 0 1 store_preexpired).food_items,
      calculate_days_until_expiry 0 i.expiry_date < 0 → i.is_expired = true) ∧
    dashboard_view 0 2 (dashboard_view 0 1 store_preexpired) =
      dashboard_view 0 1 store_preexpired :=
  C4_dashboard_idempotent 0 1 2 store_preexpired

theorem pyOr_eq_amended (p : Option ℚ) : pyOr p 5 = price_or_fallback_amended p := by
  cases p with
  | none => simp [pyOr, price_or_fallback_amended]
  | some v => by_cases hv : v = 0 <;> simp [pyOr, price_or_fallback_amended, hv]

/-- C5, counterexample: for a user whose only item is used and priced 0.0 the
code returns money_saved = 5.0 (Python `or` treats the float 0.0 as falsy and
substitutes the fallback), while the claim — fallback only when the price is
absent — demands 0.0. -/
theorem C5_counterexample :
    (calculate_user_stats store_zero_price 1).money_saved = 5 ∧
    pyRound (money_saved_spec store_zero_price 1) 2 = 0 ∧
    (calculate_user_stats store_zero_price 1).money_saved ≠
      pyRound (money_saved_spec store_zero_price 1) 2 := by
  refine ⟨?_, ?_, ?_⟩ <;>
    norm_num [calculate_user_stats, money_saved_spec, pyOr, pyRound, roundHalfEven,
      store_zero_price]

/-- C5, amended: the statistics calculator returns the claimed counts, the
monetary sums with the flat fallback 5.0 substituted when the price is absent
OR ZERO, and the waste percentage, with the claimed roundings; on the concrete
example store the values are money_saved = 10.0, money_wasted = 3.0 and
waste_percentage = 33.3. -/
theorem C5_amended :
    (∀ db : DB, ∀ uid : ℤ,
      (calculate_user_stats db uid).total_items =
        (db.food_items.filter (fun i => i.user_id == uid)).length ∧
      (calculate_user_stats db uid).expired_items =
        ((db.food_items.filter (fun i => i.user_id == uid)).filter
          (fun i => i.is_expired)).length ∧
      (calculate_user_stats db uid).used_items =
        ((db.food_items.filter (fun i => i.user_id == uid)).filter
          (fun i => i.is_used)).length ∧
      (calculate_user_stats db uid).active_items =
        ((db.food_items.filter (fun i => i.user_id == uid)).filter
          (fun i => !i.is_expired && !i.is_used)).length ∧
      (calculate_user_stats db uid).money_saved =
        pyRound ((((db.food_items.filter (fun i => i.user_id == uid)).filter
          (fun i => i.is_used)).map (fun i => price_or_fallback_amended i.price)).sum) 2 ∧
      (calculate_user_stats db uid).money_wasted =
        pyRound ((((db.food_items.filter (fun i => i.user_id == uid)).filter
          (fun i => i.is_expired)).map (fun i => price_or_fallback_amended i.price)).sum) 2 ∧
      (calculate_user_stats db uid).waste_percentage =
        pyRound (if (db.food_items.filter (fun i => i.user_id == uid)).length > 0 then
          ((((db.food_items.filter (fun i => i.user_id == uid)).filter
            (fun i => i.is_expired)).length : ℚ) /
            ((db.food_items.filter (fun i => i.user_id == uid)).length : ℚ)) * 100
          else 0) 1) ∧
    (calculate_user_stats store_stats 1).money_saved = 10 ∧
    (calculate_user_stats store_stats 1).money_wasted = 3 ∧
    (calculate_user_stats store_stats 1).waste_percentage = 333 / 10 := by
  refine ⟨fun db uid => ⟨rfl, rfl, rfl, rfl, ?_, ?_, rfl⟩, ?_, ?_, ?_⟩
  · simp [calculate_user_stats, pyOr_eq_amended]
  · simp [calculate_user_stats, pyOr_eq_amended]
  · norm_num [calculate_user_stats, pyOr, pyRound, roundHalfEven, store_stats]
  · norm_num [calculate_user_stats, pyOr, pyRound, roundHalfEven, store_stats]
  · norm_num [calculate_user_stats, pyOr, pyRound, roundHalfEven, store_stats]

/-- C6: a fresh signup on an empty user table creates an auto-admin,
auto-approved user; on a nonempty table it creates a user with both flags
false, and the user stays non-admin until admin approval sets (only) the
approval flag. -/
theorem C6_signup_flags (hashpw : String → String) (db : DB) (fid : ℤ)
    (un em pw ph : String)
    (hfresh : ∀ u ∈ db.users, u.username ≠ un ∧ u.email ≠ em)
    (hid : ∀ u ∈ db.users, u.id ≠ fid) :
    (db.users = [] →
      (signup hashpw db fid un em pw ph).1.users =
        [{ id := fid, username := un, email := em, password := hashpw pw,
           phone := if ph == "" then none else some ph,
           is_admin := true, is_approved := true }]) ∧
    (db.users ≠ [] →
      (signup hashpw db fid un em pw ph).1.users =
        db.users ++
          [{ id := fid, username := un, email := em, password := hashpw pw,
             phone := if ph == "" then none else some ph,
             is_admin := false, is_approved := false }]) ∧
    (db.users ≠ [] →
      ∀ u ∈ (approve_user (signup hashpw db fid un em pw ph).1 fid).users,
        u.id = fid → u.is_approved = true ∧ u.is_admin = false) := by
  have hcond : ¬ (db.users.any (fun u => u.username == un || u.email == em) = true) := by
    intro hany
    rw [List.any_eq_true] at hany
    obtain ⟨u, hu, huf⟩ := hany
    rw [Bool.or_eq_true, beq_iff_eq, beq_iff_eq] at huf
    rcases huf with h | h
    · exact (hfresh u hu).1 h
    · exact (hfresh u hu).2 h
  refine ⟨fun h0 => ?_, fun h1 => ?_, fun h1 => ?_⟩
  · simp [signup, hcond, h0]
  · have hlen : (db.users.length == 0) = false := by
      simp only [beq_eq_false_iff_ne, ne_eq, List.length_eq_zero]
      exact h1
    simp [signup, hcond, hlen]
  · have hlen : (db.users.length == 0) = false := by
      simp only [beq_eq_false_iff_ne, ne_eq, List.length_eq_zero]
      exact h1
    have husers : (signup hashpw db fid un em pw ph).1.users =
        db.users ++
          [{ id := fid, username := un, email := em, password := hashpw pw,
             phone := if ph == "" then none else some ph,
             is_admin := false, is_approved := false }] := by
      simp [signup, hcond, hlen]
    intro u hu huid
    simp only [approve_user, List.mem_map] at hu
    obtain ⟨u0, hu0, rfl⟩ := hu
    rw [husers, List.mem_append, List.mem_singleton] at hu0
    have hid0 : u0.id = fid := by
      by_cases hq : u0.id = fid
      · exact hq
      · rw [if_neg hq] at huid
        exact absurd huid hq
    rcases hu0 with hu0 | rfl
    · exact absurd hid0 (hid u0 hu0)
    · rw [if_pos hid0]
      exact ⟨rfl, rfl⟩

/-- Witness for C6 at concrete stores: the first-ever signup and a signup on
a two-user store, followed by approval. -/
theorem C6_witness :
    (signup (fun s => s) store_empty 1 "ann" "ann@x" "pw" "").1.users =
      [{ id := 1, username := "ann", email := "ann@x", password := "pw",
         phone := none, is_admin := true, is_approved := true }] ∧
    (signup (fun s => s) store_two_users 3 "cid" "cid@x" "pw" "").1.users =
      store_two_users.users ++
        [{ id := 3, username := "cid", email := "cid@x", password := "pw",
           phone := none, is_admin := false, is_approved := false }] ∧
    (∀ u ∈ (approve_user
        (signup (fun s => s) store_two_users 3 "cid" "cid@x" "pw" "").1 3).users,
      u.id = 3 → u.is_approved = true ∧ u.is_admin = false) := by
  refine ⟨?_, ?_, ?_⟩
  · exact (C6_signup_flags (fun s => s) store_empty 1 "ann" "ann@x" "pw" ""
      (by decide) (by decide)).1 rfl
  · exact (C6_signup_flags (fun s => s) store_two_users 3 "cid" "cid@x" "pw" ""
      (by decide) (by decide)).2.1 (by decide)
  · exact (C6_signup_flags (fun s => s) store_two_users 3 "cid" "cid@x" "pw" ""
      (by decide) (by decide)).2.2 (by decide)

/-- C7: signup returns the duplicate-identity error exactly when some existing
user already has the requested username or email, and on that failure the
store is left unchanged. -/
theorem C7_signup_error (hashpw : String → String) (db : DB) (fid : ℤ)
    (un em pw ph : String) :
    ((signup hashpw db fid un em pw ph).2 = true ↔
      ∃ u ∈ db.users, u.username = un ∨ u.email = em) ∧
    ((signup hashpw db fid un em pw ph).2 = true →
      (signup hashpw db fid un em pw ph).1 = db) := by
  have hiff : db.users.any (fun u => u.username == un || u.email == em) = true ↔
      ∃ u ∈ db.users, u.username = un ∨ u.email = em := by
    rw [List.any_eq_true]
    simp [beq_iff_eq]
  unfold signup
  by_cases hc : db.users.any (fun u => u.username == un || u.email == em) = true
  · rw [if_pos hc]
    refine ⟨?_, fun _ => rfl⟩
    constructor
    · intro _
      exact hiff.mp hc
    · intro _
      rfl
  · rw [if_neg hc]
    refine ⟨?_, ?_⟩
    · constructor
      · intro hfalse
        simp at hfalse
      · intro hex
        exact absurd (hiff.mpr hex) hc
    · intro hfalse
      simp at hfalse

/-- Witness for C7 at a concrete store: a username clash. -/
theorem C7_witness :
    ((signup (fun s => s) store_two_users 9 "ann" "zzz@x" "pw" "").2 = true ↔
      ∃ u ∈ store_two_users.users, u.username = "ann" ∨ u.email = "zzz@x") ∧
    (signup (fun s => s) store_two_users 9 "ann" "zzz@x" "pw" "").1 = store_two_users := by
  refine ⟨(C7_signup_error (fun s => s) store_two_users 9 "ann" "zzz@x" "pw" "").1, ?_⟩
  exact (C7_signup_error (fun s => s) store_two_users 9 "ann" "zzz@x" "pw" "").2 (by decide)

theorem nodup_user_id_inj {l : List User} {a b : User}
    (h : (l.map (fun u => u.id)).Nodup)
    (ha : a ∈ l) (hb : b ∈ l) (hab : a.id = b.id) : a = b :=
  List.inj_on_of_nodup_map h ha hb hab

/-- C8: an admin deleting a different existing user removes exactly that user
and exactly that user's food items; every other user's food items remain. -/
theorem C8_delete_user_cascade (db : DB) (admin target : User)
    (hund : (db.users.map (fun u => u.id)).Nodup)
    (hadm : admin ∈ db.users) (hia : admin.is_admin = true)
    (htm : target ∈ db.users) (hne : target.id ≠ admin.id) :
    delete_user db admin.id target.id =
      some { db with
        users := db.users.filter (fun u => !(u.id == target.id)),
        food_items := db.food_items.filter (fun i => !(i.user_id == target.id)) } ∧
    (∀ u : User, u ∈ db.users.filter (fun u => !(u.id == target.id)) ↔
      u ∈ db.users ∧ u.id ≠ target.id) ∧
    (∀ i : FoodItem, i ∈ db.food_items.filter (fun i => !(i.user_id == target.id)) ↔
      i ∈ db.food_items ∧ i.user_id ≠ target.id) := by
  obtain ⟨ua, hua⟩ : ∃ ua, db.users.find? (fun u => u.id == admin.id) = some ua := by
    have hs : (db.users.find? (fun u => u.id == admin.id)).isSome := by
      rw [List.find?_isSome]
      exact ⟨admin, hadm, by simp⟩
    exact Option.isSome_iff_exists.mp hs
  have huaa : ua = admin := by
    have h1 := List.find?_some hua
    have h2 := List.mem_of_find?_eq_some hua
    rw [beq_iff_eq] at h1
    exact nodup_user_id_inj hund h2 hadm h1
  subst huaa
  have hts : (db.users.find? (fun u => u.id == target.id)).isSome = true := by
    rw [List.find?_isSome]
    exact ⟨target, htm, by simp⟩
  refine ⟨?_, ?_, ?_⟩
  · unfold delete_user
    rw [hua, Option.some_bind, if_pos hia, if_neg hne, if_pos hts]
  · intro u
    simp [List.mem_filter]
  · intro i
    simp [List.mem_filter]

/-- Witness for C8 at a concrete store: the admin deletes the second user. -/
theorem C8_witness :
    delete_user store_two_users 1 2 =
      some { store_two_users with
        users := store_two_users.users.filter (fun u => !(u.id == 2)),
        food_items := store_two_users.food_items.filter (fun i => !(i.user_id == 2)) } ∧
    (∀ u : User, u ∈ store_two_users.users.filter (fun u => !(u.id == 2)) ↔
      u ∈ store_two_users.users ∧ u.id ≠ 2) ∧
    (∀ i : FoodItem, i ∈ store_two_users.food_items.filter (fun i => !(i.user_id == 2)) ↔
      i ∈ store_two_users.food_items ∧ i.user_id ≠ 2) := by
  exact C8_delete_user_cascade store_two_users
    { id := 1, username := "ann", email := "ann@x", password := "h",
      phone := none, is_admin := true, is_approved := true }
    { id := 2, username := "bob", email := "bob@x", password := "h",
      phone := none, is_admin := false, is_approved := true }
    (by decide) (by decide) (by decide) (by decide) (by decide)

/-- C10: an admin invoking delete-user on their own id is a silent no-op: the
request is answered with the redirect and the store is completely unchanged. -/
theorem C10_delete_self_noop (db : DB) (admin : User)
    (hund : (db.users.map (fun u => u.id)).Nodup)
    (hadm : admin ∈ db.users) (hia : admin.is_admin = true) :
    delete_user db admin.id admin.id = some db := by
  obtain ⟨ua, hua⟩ : ∃ ua, db.users.find? (fun u => u.id == admin.id) = some ua := by
    have hs : (db.users.find? (fun u => u.id == admin.id)).isSome := by
      rw [List.find?_isSome]
      exact ⟨admin, hadm, by simp⟩
    exact Option.isSome_iff_exists.mp hs
  have huaa : ua = admin := by
    have h1 := List.find?_some hua
    have h2 := List.mem_of_find?_eq_some hua
    rw [beq_iff_eq] at h1
    exact nodup_user_id_inj hund h2 hadm h1
  subst huaa
  unfold delete_user
  rw [hua, Option.some_bind, if_pos hia, if_pos rfl]

/-- Witness for C10 at a concrete store. -/
theorem C10_witness : delete_user store_two_users 1 1 = some store_two_users :=
  C10_delete_self_noop store_two_users
    { id := 1, username := "ann", email := "ann@x", password := "h",
      phone := none, is_admin := true, is_approved := true }
    (by decide) (by decide) (by decide)

/-- C9: the recipe helper selects the user's items with expiry no later than
30 days from now and not flagged expired; when no item qualifies it returns
the fixed fallback string, otherwise the fixed template naming at most the
first 3 selected item names. -/
theorem C9_recipe_suggestions (today uid : ℤ) (db : DB) :
    ((∀ i ∈ db.food_items,
        ¬ (i.user_id = uid ∧ i.expiry_date ≤ today + 30 ∧ i.is_expired = false)) →
      get_recipe_suggestions today db uid = "No recipes available") ∧
    (∀ i ∈ db.food_items,
      (i.user_id = uid ∧ i.expiry_date ≤ today + 30 ∧ i.is_expired = false) →
      get_recipe_suggestions today db uid =
        "You have: " ++
          String.intercalate ", "
            (((db.food_items.filter (fun j =>
                j.user_id == uid && decide (j.expiry_date ≤ today + 30) &&
                  j.is_expired == false)).map (fun j => j.name)).take 3) ++
          ". Try making a stir-fry, soup, or salad!") := by
  constructor
  · intro hnone
    have hf : db.food_items.filter (fun j => j.user_id == uid &&
        decide (j.expiry_date ≤ today + 30) && j.is_expired == false) = [] := by
      rw [List.filter_eq_nil_iff]
      intro a ha hb
      apply hnone a ha
      simp only [Bool.and_eq_true, beq_iff_eq, decide_eq_true_eq] at hb
      exact ⟨hb.1.1, hb.1.2, hb.2⟩
    simp only [get_recipe_suggestions]
    rw [hf]
    rfl
  · intro i hi hq
    have hne : db.food_items.filter (fun j => j.user_id == uid &&
        decide (j.expiry_date ≤ today + 30) && j.is_expired == false) ≠ [] := by
      intro hnil
      rw [List.filter_eq_nil_iff] at hnil
      apply hnil i hi
      simp only [Bool.and_eq_true, beq_iff_eq, decide_eq_true_eq]
      exact ⟨⟨hq.1, hq.2.1⟩, hq.2.2⟩
    cases hfl : db.food_items.filter (fun j => j.user_id == uid &&
        decide (j.expiry_date ≤ today + 30) && j.is_expired == false) with
    | nil => exact absurd hfl hne
    | cons a l =>
      simp only [get_recipe_suggestions]
      rw [hfl]
      rfl

/-- Witness for C9 at concrete stores: a user with no qualifying item and a
user with one qualifying item. -/
theorem C9_witness :
    get_recipe_suggestions 0 store_zero_price 2 = "No recipes available" ∧
    get_recipe_suggestions 0 store_two_users 2 =
      "You have: " ++
        String.intercalate ", "
          (((store_two_users.food_items.filter (fun j =>
              j.user_id == 2 && decide (j.expiry_date ≤ 0 + 30) &&
                j.is_expired == false)).map (fun j => j.name)).take 3) ++
        ". Try making a stir-fry, soup, or salad!" := by
  constructor
  · exact (C9_recipe_suggestions 0 2 store_zero_price).1 (by decide)
  · exact (C9_recipe_suggestions 0 2 store_two_users).2
      { id := 1, user_id := 2, name := "milk", expiry_date := 10,
        quantity := 1, price := none, is_expired := false, is_used := false }
      (by decide) (by decide)
